import Mathlib

/-!
Verification of `Testprojects/generate_reports.py`, a sequential coverage-report
orchestration script.  The script is embedded shallowly: every external effect
(launching a subprocess, deleting a file, creating a directory, printing a line)
becomes an event in a trace, and the environment (exit codes and captured output
of subprocesses, file sizes, directory-creation failures) is a read-only oracle
`World`.  Each observation point of one run of the script queries a distinct key
(a distinct command specification or a distinct path), so a fixed oracle loses
no generality.  A computation yields its trace together with either a value or
the exit code passed to `sys.exit`.
-/

namespace GenerateReports

/-- A filesystem path, as its list of components (`pathlib.Path`). -/
abbrev Path := List String

/-- Textual form of a path, as printed in diagnostics. -/
def pathStr (p : Path) : String := String.intercalate "/" p

/-- `pathlib.Path.name`: the final component. -/
def pathName (p : Path) : String := p.getLastD ""

/-- A command specification: either a list of discrete arguments or a single
shell string (the two shapes accepted by `subprocess.run`). -/
inductive CmdSpec where
  | args (xs : List String)
  | str (s : String)
  deriving DecidableEq

/-- `isinstance(command_args_or_string, str)`. -/
def CmdSpec.isString : CmdSpec → Bool
  | .args _ => false
  | .str _ => true

/-- One observable effect of the script. -/
inductive Step where
  | printLine (s : String) (toStderr : Bool)
  | execCmd (commandName : String) (spec : CmdSpec) (workingDir : Option Path)
  | mkdirCall (p : Path)
  | unlink (p : Path)
  deriving DecidableEq

/-- Recognize subprocess-launch events. -/
def Step.isExec : Step → Bool
  | .execCmd _ _ _ => true
  | _ => false

/-- Recognize subprocess-launch events with a given label. -/
def Step.isExecNamed (n : String) : Step → Bool
  | .execCmd m _ _ => m == n
  | _ => false

/-- Recognize file-deletion events. -/
def Step.isUnlink : Step → Bool
  | .unlink _ => true
  | _ => false

/-- Recognize directory-creation events. -/
def Step.isMkdirOf (q : Path) : Step → Bool
  | .mkdirCall p => p == q
  | _ => false

/-- Outcome of a computation: a value, or the whole process exited. -/
inductive Res (α : Type) where
  | ok (a : α)
  | exit (code : Nat)
  deriving DecidableEq

/-- A computation: the trace of effects it performed, and its outcome. -/
abbrev M (α : Type) := List Step × Res α

/-- Sequencing: once `sys.exit` has happened nothing further runs. -/
def bindM {α β : Type} (m : M α) (k : α → M β) : M β :=
  match m with
  | (t, .exit c) => (t, .exit c)
  | (t, .ok a) =>
    match k a with
    | (t2, r) => (t ++ t2, r)

instance : Monad M where
  pure a := ([], .ok a)
  bind := bindM

/-- Emit one console line. -/
def emit (s : String) (toStderr : Bool := false) : M Unit :=
  ([.printLine s toStderr], .ok ())

/-- Emit one console line when `c` holds (`if process.stdout: print(...)`). -/
def emitIf (c : Bool) (s : String) (toStderr : Bool := false) : M Unit :=
  ((if c then [.printLine s toStderr] else []), .ok ())

/-- `sys.exit code`. -/
def exitWith {α : Type} (code : Nat) : M α := ([], .exit code)

/-- The read-only environment one run of the script observes.
`runRc spec cwd` is the subprocess outcome for launching `spec` in `cwd`:
`none` models `FileNotFoundError`, `some (rc, out, err)` a completed process
with exit code `rc` and captured stdout/stderr.  `fileSize p` is `none` when
`p` does not exist and `some n` when it exists with size `n` bytes.
`mkdirFails p` says whether `mkdir(parents=True, exist_ok=True)` on `p`
raises `OSError`. -/
structure World where
  runRc : CmdSpec → Option Path → Option (Int × String × String)
  fileSize : Path → Option Nat
  isDir : Path → Bool
  isFile : Path → Bool
  mkdirFails : Path → Bool

/-- `pathlib.Path.exists()`. -/
def pathExists (w : World) (p : Path) : Bool := (w.fileSize p).isSome

/-- `path.stat().st_size` (only consulted on existing paths). -/
def statSize (w : World) (p : Path) : Nat := (w.fileSize p).getD 0

/-! ## Path constants of the script -/

def SCRIPT_ROOT : Path := ["Testprojects"]

def CSHARP_TEST_PROJECT_PATH : Path :=
  SCRIPT_ROOT ++ ["CSharp", "Project_DotNetCore", "UnitTests", "UnitTests.csproj"]
def CSHARP_COVERAGE_OUTPUT_DIR : Path := SCRIPT_ROOT ++ ["CSharp", "Reports"]
def CSHARP_COBERTURA_XML_PATH : Path :=
  CSHARP_COVERAGE_OUTPUT_DIR ++ ["coverage.cobertura.xml"]
def CSHARP_REPORTS_FROM_GO_TOOL_DIR : Path :=
  SCRIPT_ROOT.dropLast ++ ["reports", "csharp_project_go_tool_report"]
def CSHARP_REPORTS_FROM_DOTNET_TOOL_DIR : Path :=
  SCRIPT_ROOT.dropLast ++ ["reports", "csharp_project_dotnet_tool_report"]

def GO_PROJECT_TO_TEST_PATH : Path := SCRIPT_ROOT ++ ["Go"]
def GO_PROJECT_NATIVE_COVERAGE_FILE : Path := GO_PROJECT_TO_TEST_PATH ++ ["coverage.out"]
def GO_PROJECT_COBERTURA_XML_FILE : Path :=
  GO_PROJECT_TO_TEST_PATH ++ ["coverage.cobertura.xml"]
def GO_PROJECT_REPORTS_FROM_GO_TOOL_DIR : Path :=
  SCRIPT_ROOT.dropLast ++ ["reports", "go_project_go_tool_report"]
def GO_PROJECT_REPORTS_FROM_DOTNET_TOOL_DIR : Path :=
  SCRIPT_ROOT.dropLast ++ ["reports", "go_project_dotnet_tool_report"]

def GO_REPORT_GENERATOR_CMD_PATH : Path :=
  SCRIPT_ROOT.dropLast ++ ["go_report_generator", "cmd"]
def DOTNET_REPORT_GENERATOR_DLL_PATH : Path :=
  SCRIPT_ROOT.dropLast ++
    ["src", "ReportGenerator.Console.NetCore", "bin", "Debug", "net8.0", "ReportGenerator.dll"]

/-! ## Command Runner (`run_command`) -/

/-- The display string of a command: the string itself, or the arguments
joined by spaces. -/
def displayCmd : CmdSpec → String
  | .str s => s
  | .args xs => String.intercalate " " xs

/-- The truncated command preview printed before execution. -/
def cmdPreview (s : String) : String :=
  (s.take 100) ++ (if s.length > 100 then "..." else "")

/-- The executable named in the `FileNotFoundError` diagnostic: the whole
string under shell mode, else the first argument. -/
def executableOf (command : CmdSpec) (shell : Bool) : String :=
  if shell then displayCmd command
  else match command with
    | .args xs => xs.headD ""
    | .str s => s

/-- `run_command`: validate the spec shape against the shell flag, print the
preview, launch the subprocess, print its captured streams, and exit the
process on any failure. -/
def run_command (w : World) (command : CmdSpec) (working_dir : Option Path := none)
    (command_name : String := "Command") (shell : Bool := false) : M Unit :=
  let is_string_command := command.isString
  if shell && !is_string_command then
    bindM (emit ("❌ Error: If shell=True, command must be a string. Got: " ++
        displayCmd command) true) (fun _ => exitWith 1)
  else if !shell && is_string_command then
    bindM (emit ("❌ Error: If shell=False, command must be a list. Got: " ++
        displayCmd command) true) (fun _ => exitWith 1)
  else
    let cmd_display_str := displayCmd command
    bindM (emit ("Executing " ++ command_name ++ ": " ++ cmdPreview cmd_display_str))
      (fun _ =>
    bindM (match working_dir with
           | some d => emit ("  (in " ++ pathStr d ++ ")")
           | none => pure ())
      (fun _ =>
    bindM (([Step.execCmd command_name command working_dir], Res.ok ()) : M Unit)
      (fun _ =>
    match w.runRc command working_dir with
    | none =>
      bindM (emit ("❌ Error: Command not found - " ++ executableOf command shell ++
          ". Ensure it is in your PATH.") true) (fun _ => exitWith 1)
    | some (rc, out, err) =>
      bindM (emitIf (out != "") ("  Stdout from " ++ command_name ++ ":\n" ++ out.trim))
        (fun _ =>
      bindM (emitIf (err != "") ("  Stderr from " ++ command_name ++ ":\n" ++ err.trim) true)
        (fun _ =>
      if rc != 0 then
        bindM (emit ("❌ Error executing " ++ command_name ++ ": " ++ cmd_display_str) true)
          (fun _ =>
        bindM (emit ("  Return code: " ++ toString rc) true)
          (fun _ => exitWith 1))
      else pure ())))))

/-! ## Directory Ensurer (`ensure_dir`) -/

/-- `ensure_dir`: attempt `mkdir(parents=True, exist_ok=True)`; on `OSError`
print a diagnostic naming the path and exit with code 1. -/
def ensure_dir (w : World) (dir_path : Path) : M Unit :=
  bindM (([Step.mkdirCall dir_path], Res.ok ()) : M Unit)
    (fun _ =>
  if w.mkdirFails dir_path then
    bindM (emit ("❌ Error creating directory " ++ pathStr dir_path) true)
      (fun _ => exitWith 1)
  else pure ())

/-- The filesystem effect of a successful `mkdir(parents=True, exist_ok=True)`,
on a filesystem modelled as the list of existing directories: every nonempty
prefix of the path is created if missing. -/
def pathPrefixes (p : Path) : List Path :=
  (List.range p.length).map (fun i => p.take (i + 1))

/-- Insert a directory if it is not already present. -/
def insertDir (fs : List Path) (p : Path) : List Path :=
  if p ∈ fs then fs else fs ++ [p]

/-- `mkdir(parents=True, exist_ok=True)` on the list-of-directories model. -/
def mkdir_parents (fs : List Path) (p : Path) : List Path :=
  (pathPrefixes p).foldl insertDir fs

/-- The filesystem effect of a successful `ensure_dir` call. -/
def ensure_dir_fs (fs : List Path) (p : Path) : List Path :=
  mkdir_parents fs p

/-! ## Artifact Verifier (`check_file_generated`) -/

/-- `check_file_generated`: print a diagnostic and return a boolean;
true only when the path exists with non-zero size.  Never exits. -/
def check_file_generated (w : World) (file_path : Path) (file_description : String) :
    M Bool :=
  if !pathExists w file_path || statSize w file_path == 0 then
    bindM (emit ("❌ Error: " ++ file_description ++ " not generated or is empty at " ++
        pathStr file_path) true) (fun _ => pure false)
  else
    bindM (emit ("✅ " ++ file_description ++ " generated: " ++ pathStr file_path))
      (fun _ => pure true)

/-- The Artifact Verifier contract as the spec words it: true exactly when the
path exists and its size is greater than zero bytes. -/
def artifactVerifierSpec (w : World) (p : Path) : Bool :=
  match w.fileSize p with
  | some n => decide (0 < n)
  | none => false

/-! ## The per-project workflows -/

def dotnet_test_command : List String :=
  ["dotnet", "test", pathStr CSHARP_TEST_PROJECT_PATH,
   "--configuration", "Release", "--verbosity", "minimal",
   "/p:CollectCoverage=true", "/p:CoverletOutputFormat=cobertura",
   "/p:CoverletOutput=" ++ pathStr CSHARP_COBERTURA_XML_PATH]

def go_report_command_csharp : List String :=
  ["go", "run", ".",
   "-report=" ++ pathStr CSHARP_COBERTURA_XML_PATH,
   "-output=" ++ pathStr CSHARP_REPORTS_FROM_GO_TOOL_DIR,
   "-reporttypes=TextSummary"]

def dotnet_rg_command_csharp : List String :=
  ["dotnet", pathStr DOTNET_REPORT_GENERATOR_DLL_PATH,
   "-reports:" ++ pathStr CSHARP_COBERTURA_XML_PATH,
   "-targetdir:" ++ pathStr CSHARP_REPORTS_FROM_DOTNET_TOOL_DIR,
   "-reporttypes:TextSummary"]

/-- `run_csharp_workflow`: ensure the three output directories, run
`dotnet test` with Cobertura collection, verify the XML, run both report
generators, verify both summaries, exiting on any hard failure. -/
def run_csharp_workflow (w : World) : M Unit := do
  emit "\n--- Starting C# Project Workflow ---"
  ensure_dir w CSHARP_COVERAGE_OUTPUT_DIR
  ensure_dir w CSHARP_REPORTS_FROM_GO_TOOL_DIR
  ensure_dir w CSHARP_REPORTS_FROM_DOTNET_TOOL_DIR
  emit "C# workflow output directories ensured."
  emit "\n--- Generating Cobertura XML for C# project ---"
  run_command w (.args dotnet_test_command) none "dotnet test (C#)" false
  let xml_ok ← check_file_generated w CSHARP_COBERTURA_XML_PATH "C# Cobertura XML"
  if !xml_ok then exitWith 1
  emit "\n--- Generating report with Go tool for C# Cobertura ---"
  run_command w (.args go_report_command_csharp) (some GO_REPORT_GENERATOR_CMD_PATH)
    "Go Report Generator (for C#)" false
  let csharp_go_summary_ok ← check_file_generated w
    (CSHARP_REPORTS_FROM_GO_TOOL_DIR ++ ["Summary.txt"]) "C# Go-tool TextSummary"
  emit "\n--- Generating report with .NET tool for C# Cobertura ---"
  run_command w (.args dotnet_rg_command_csharp) none ".NET ReportGenerator (for C#)" false
  let csharp_dotnet_summary_ok ← check_file_generated w
    (CSHARP_REPORTS_FROM_DOTNET_TOOL_DIR ++ ["Summary.txt"]) "C# .NET-tool TextSummary"
  if !(csharp_go_summary_ok && csharp_dotnet_summary_ok) then
    emit "❌ C# workflow: One or more TextSummary reports failed to generate." true
    exitWith 1
  emit "--- C# Project Workflow Finished Successfully ---"

def go_test_command : List String :=
  ["go", "test", "-coverprofile=" ++ pathName GO_PROJECT_NATIVE_COVERAGE_FILE, "./..."]

def gocover_cobertura_command_str : String :=
  "gocover-cobertura.exe < \"" ++ pathName GO_PROJECT_NATIVE_COVERAGE_FILE ++
  "\" > \"" ++ pathName GO_PROJECT_COBERTURA_XML_FILE ++ "\""

def go_report_command_go_proj : List String :=
  ["go", "run", ".",
   "-report=" ++ pathStr GO_PROJECT_COBERTURA_XML_FILE,
   "-output=" ++ pathStr GO_PROJECT_REPORTS_FROM_GO_TOOL_DIR,
   "-reporttypes=TextSummary"]

def dotnet_rg_command_go_proj : List String :=
  ["dotnet", pathStr DOTNET_REPORT_GENERATOR_DLL_PATH,
   "-reports:" ++ pathStr GO_PROJECT_COBERTURA_XML_FILE,
   "-targetdir:" ++ pathStr GO_PROJECT_REPORTS_FROM_DOTNET_TOOL_DIR,
   "-reporttypes:TextSummary"]

/-- `run_go_project_workflow`: ensure the two output directories, require the
Go project directory to exist, delete stale coverage artifacts
(`unlink(missing_ok=True)` never fails on an absent file), run `go test`,
convert to Cobertura through the shell, run both report generators and verify
both summaries, exiting on any hard failure. -/
def run_go_project_workflow (w : World) : M Unit := do
  emit "\n--- Starting Go Project Workflow ---"
  ensure_dir w GO_PROJECT_REPORTS_FROM_GO_TOOL_DIR
  ensure_dir w GO_PROJECT_REPORTS_FROM_DOTNET_TOOL_DIR
  if !pathExists w GO_PROJECT_TO_TEST_PATH then
    emit ("❌ Error: Go project to test not found at " ++
      pathStr GO_PROJECT_TO_TEST_PATH) true
    exitWith 1
  emit "Go workflow output directories ensured."
  (([Step.unlink GO_PROJECT_NATIVE_COVERAGE_FILE], Res.ok ()) : M Unit)
  (([Step.unlink GO_PROJECT_COBERTURA_XML_FILE], Res.ok ()) : M Unit)
  emit "Old Go coverage files removed."
  emit "\n--- Generating native Go coverage ---"
  run_command w (.args go_test_command) (some GO_PROJECT_TO_TEST_PATH)
    "go test (Go project)" false
  let native_ok ← check_file_generated w GO_PROJECT_NATIVE_COVERAGE_FILE
    "Go native coverage"
  if !native_ok then exitWith 1
  emit "\n--- Converting Go native coverage to Cobertura XML ---"
  run_command w (.str gocover_cobertura_command_str) (some GO_PROJECT_TO_TEST_PATH)
    "gocover-cobertura" true
  let conv_ok ← check_file_generated w GO_PROJECT_COBERTURA_XML_FILE
    "Go project Cobertura XML"
  if !conv_ok then exitWith 1
  emit "\n--- Generating report with Go tool for Go Cobertura ---"
  run_command w (.args go_report_command_go_proj) (some GO_REPORT_GENERATOR_CMD_PATH)
    "Go Report Generator (for Go project)" false
  let go_proj_go_summary_ok ← check_file_generated w
    (GO_PROJECT_REPORTS_FROM_GO_TOOL_DIR ++ ["Summary.txt"]) "Go-project Go-tool TextSummary"
  emit "\n--- Generating report with .NET tool for Go Cobertura ---"
  run_command w (.args dotnet_rg_command_go_proj) none ".NET ReportGenerator (for Go project)" false
  let go_proj_dotnet_summary_ok ← check_file_generated w
    (GO_PROJECT_REPORTS_FROM_DOTNET_TOOL_DIR ++ ["Summary.txt"])
    "Go-project .NET-tool TextSummary"
  if !(go_proj_go_summary_ok && go_proj_dotnet_summary_ok) then
    emit "❌ Go project workflow: One or more TextSummary reports failed to generate." true
    exitWith 1
  emit "--- Go Project Workflow Finished Successfully ---"

/-! ## Top-level orchestrator (`main`) -/

def go_main_file : Path := GO_REPORT_GENERATOR_CMD_PATH ++ ["main.go"]

/-- `main`: preflight-check the two report-generator tools, then run the C#
workflow followed by the Go workflow. -/
def main (w : World) : M Unit := do
  emit "Python script for C# and Go project coverage and reporting."
  if !(w.isDir GO_REPORT_GENERATOR_CMD_PATH) || !(w.isFile go_main_file) then
    emit ("❌ Error: Go Report Generator main.go not found in " ++
      pathStr GO_REPORT_GENERATOR_CMD_PATH ++ " or path is not a directory.") true
    exitWith 1
  if !pathExists w DOTNET_REPORT_GENERATOR_DLL_PATH then
    emit ("❌ Error: .NET ReportGenerator.dll not found: " ++
      pathStr DOTNET_REPORT_GENERATOR_DLL_PATH) true
    exitWith 1
  emit "Common report generation tools found."
  run_csharp_workflow w
  run_go_project_workflow w
  emit "\nAll workflows completed successfully."

/-- The exit status of the whole process: the `sys.exit` code, or 0 when the
script runs to completion. -/
def processExit (m : M Unit) : Nat :=
  match m.2 with
  | .ok _ => 0
  | .exit c => c

/-! ## Lemmas about the computation model -/

theorem bind_eq_bindM {α β : Type} (m : M α) (k : α → M β) : m >>= k = bindM m k := rfl

theorem pure_eq {α : Type} (a : α) : (pure a : M α) = ([], .ok a) := rfl

theorem bindM_mk_ok {α β : Type} (t : List Step) (a : α) (k : α → M β) :
    bindM (t, .ok a) k = (t ++ (k a).1, (k a).2) := by
  rcases hka : k a with ⟨t2, r⟩
  simp [bindM, hka]

theorem bindM_mk_exit {α β : Type} (t : List Step) (c : Nat) (k : α → M β) :
    bindM (t, .exit c) k = (t, .exit c) := rfl

theorem bindM_ite {α β : Type} (g : Prop) [Decidable g] (A B : M α) (k : α → M β) :
    bindM (if g then A else B) k = if g then bindM A k else bindM B k := by
  split <;> rfl

theorem bindM_of_exit {α β : Type} {m : M α} {c : Nat} (h : m.2 = .exit c)
    (k : α → M β) : bindM m k = (m.1, .exit c) := by
  obtain ⟨t, r⟩ := m
  cases r with
  | ok a => simp at h
  | exit e => cases h; rfl

theorem bindM_snd_ok_iff {α β : Type} (m : M α) (k : α → M β) (b : β) :
    (bindM m k).2 = .ok b ↔ ∃ a, m.2 = .ok a ∧ (k a).2 = .ok b := by
  obtain ⟨t, r⟩ := m
  cases r with
  | ok a => simp [bindM_mk_ok]
  | exit c => simp [bindM_mk_exit]

theorem bindM_fst_ok {α β : Type} {m : M α} {a : α} (h : m.2 = .ok a)
    (k : α → M β) : (bindM m k).1 = m.1 ++ (k a).1 := by
  obtain ⟨t, r⟩ := m
  cases r with
  | ok x => cases h; simp [bindM_mk_ok]
  | exit c => simp at h

/-- Common hypothesis bundle: the outcome of a completed subprocess with exit
code zero. -/
def cmdOk (w : World) (c : CmdSpec) (d : Option Path) : Prop :=
  ∃ rc out err, w.runRc c d = some (rc, out, err) ∧ rc = 0

/-- Outcomes the script can produce: a value, or `sys.exit(1)`. -/
def goodRes {α : Type} : Res α → Prop
  | .ok _ => True
  | .exit c => c = 1

theorem goodRes_bindM {α β : Type} {m : M α} {k : α → M β}
    (hm : goodRes m.2) (hk : ∀ a, goodRes (k a).2) : goodRes (bindM m k).2 := by
  obtain ⟨t, r⟩ := m
  cases r with
  | ok a => rw [bindM_mk_ok]; exact hk a
  | exit c => rw [bindM_mk_exit]; exact hm

/-! ## Component lemmas -/

theorem goodRes_mk_ok {α : Type} (t : List Step) (a : α) :
    goodRes ((t, Res.ok a) : M α).2 := trivial

theorem goodRes_emit (s : String) (b : Bool) : goodRes (emit s b).2 := trivial

theorem goodRes_pure {α : Type} (a : α) : goodRes ((pure a : M α)).2 := trivial

theorem goodRes_exitWith1 {α : Type} : goodRes ((exitWith 1 : M α)).2 := rfl

theorem run_command_ok_iff (w : World) (c : CmdSpec) (d : Option Path) (n : String)
    (sh : Bool) :
    (run_command w c d n sh).2 = .ok () ↔ c.isString = sh ∧ cmdOk w c d := by
  unfold run_command cmdOk
  rcases hb : c.isString <;> rcases hsh : sh <;>
    simp [emit, emitIf, exitWith, bindM_mk_ok, bindM_mk_exit] <;>
    rcases hrc : w.runRc c d with _ | ⟨rc, out, err⟩ <;>
    rcases d with _ | dd <;>
    simp [hrc, pure_eq, bindM_mk_ok, bindM_mk_exit] <;>
    (try split) <;> simp_all

theorem run_command_ok_iff_any (w : World) (c : CmdSpec) (d : Option Path) (n : String)
    (sh : Bool) (a : Unit) :
    (run_command w c d n sh).2 = .ok a ↔ c.isString = sh ∧ cmdOk w c d := by
  cases a; exact run_command_ok_iff w c d n sh

theorem run_command_goodRes (w : World) (c : CmdSpec) (d : Option Path) (n : String)
    (sh : Bool) : goodRes (run_command w c d n sh).2 := by
  unfold run_command
  rcases hb : c.isString <;> rcases hsh : sh <;>
    simp [emit, emitIf, exitWith, bindM_mk_ok, bindM_mk_exit, goodRes] <;>
    rcases hrc : w.runRc c d with _ | ⟨rc, out, err⟩ <;>
    rcases d with _ | dd <;>
    simp [hrc, pure_eq, bindM_mk_ok, bindM_mk_exit, goodRes] <;>
    first
      | trivial
      | (rcases eq_or_ne rc 0 with h0 | h0 <;> simp [h0, goodRes])

theorem ensure_dir_ok_iff (w : World) (p : Path) :
    (ensure_dir w p).2 = .ok () ↔ w.mkdirFails p = false := by
  unfold ensure_dir
  rcases hm : w.mkdirFails p <;>
    simp [hm, emit, exitWith, bindM_mk_ok, bindM_mk_exit, pure_eq]

theorem ensure_dir_ok_iff_any (w : World) (p : Path) (a : Unit) :
    (ensure_dir w p).2 = .ok a ↔ w.mkdirFails p = false := by
  cases a; exact ensure_dir_ok_iff w p

theorem ensure_dir_goodRes (w : World) (p : Path) : goodRes (ensure_dir w p).2 := by
  unfold ensure_dir
  rcases hm : w.mkdirFails p <;>
    simp [hm, emit, exitWith, bindM_mk_ok, bindM_mk_exit, pure_eq, goodRes]

theorem check_file_snd (w : World) (p : Path) (desc : String) :
    (check_file_generated w p desc).2 = .ok (artifactVerifierSpec w p) := by
  unfold check_file_generated artifactVerifierSpec
  rcases hf : w.fileSize p with _ | n
  · simp [pathExists, statSize, hf, emit, bindM_mk_ok, pure_eq]
  · rcases n with _ | m <;>
      simp [pathExists, statSize, hf, emit, bindM_mk_ok, pure_eq]

theorem check_file_goodRes (w : World) (p : Path) (desc : String) :
    goodRes (check_file_generated w p desc).2 := by
  rw [check_file_snd]; trivial

theorem run_csharp_workflow_goodRes (w : World) : goodRes (run_csharp_workflow w).2 := by
  unfold run_csharp_workflow
  simp only [bind_eq_bindM]
  repeat first
    | exact goodRes_emit _ _
    | exact goodRes_mk_ok _ _
    | exact run_command_goodRes _ _ _ _ _
    | exact check_file_goodRes _ _ _
    | exact ensure_dir_goodRes _ _
    | exact goodRes_pure _
    | exact goodRes_exitWith1
    | intro _
    | apply goodRes_bindM
    | split

set_option maxRecDepth 4000 in
theorem run_go_project_workflow_goodRes (w : World) :
    goodRes (run_go_project_workflow w).2 := by
  unfold run_go_project_workflow
  simp only [bind_eq_bindM]
  repeat first
    | exact goodRes_emit _ _
    | exact goodRes_mk_ok _ _
    | exact run_command_goodRes _ _ _ _ _
    | exact check_file_goodRes _ _ _
    | exact ensure_dir_goodRes _ _
    | exact goodRes_pure _
    | exact goodRes_exitWith1
    | intro _
    | apply goodRes_bindM
    | split

set_option maxRecDepth 4000 in
theorem main_goodRes (w : World) : goodRes (main w).2 := by
  unfold main
  simp only [bind_eq_bindM]
  repeat first
    | exact goodRes_emit _ _
    | exact goodRes_mk_ok _ _
    | exact run_csharp_workflow_goodRes _
    | exact run_go_project_workflow_goodRes _
    | exact goodRes_pure _
    | exact goodRes_exitWith1
    | intro _
    | apply goodRes_bindM
    | split

/-! ## Success characterizations -/

/-- All conditions the C# workflow needs to finish without `sys.exit`. -/
def csharpConds (w : World) : Prop :=
  w.mkdirFails CSHARP_COVERAGE_OUTPUT_DIR = false ∧
  w.mkdirFails CSHARP_REPORTS_FROM_GO_TOOL_DIR = false ∧
  w.mkdirFails CSHARP_REPORTS_FROM_DOTNET_TOOL_DIR = false ∧
  cmdOk w (CmdSpec.args dotnet_test_command) none ∧
  artifactVerifierSpec w CSHARP_COBERTURA_XML_PATH = true ∧
  cmdOk w (CmdSpec.args go_report_command_csharp) (some GO_REPORT_GENERATOR_CMD_PATH) ∧
  cmdOk w (CmdSpec.args dotnet_rg_command_csharp) none ∧
  artifactVerifierSpec w (CSHARP_REPORTS_FROM_GO_TOOL_DIR ++ ["Summary.txt"]) = true ∧
  artifactVerifierSpec w (CSHARP_REPORTS_FROM_DOTNET_TOOL_DIR ++ ["Summary.txt"]) = true

theorem run_csharp_workflow_ok_iff (w : World) :
    (run_csharp_workflow w).2 = .ok () ↔ csharpConds w := by
  unfold run_csharp_workflow csharpConds
  simp only [bind_eq_bindM]
  simp [bindM_snd_ok_iff, run_command_ok_iff_any, check_file_snd, ensure_dir_ok_iff_any,
    emit, exitWith, pure_eq, CmdSpec.isString, bindM_mk_ok, bindM_mk_exit,
    apply_ite, ite_apply, if_false_left, if_true_left]

/-- All conditions the Go-project workflow needs to finish without `sys.exit`. -/
def goConds (w : World) : Prop :=
  w.mkdirFails GO_PROJECT_REPORTS_FROM_GO_TOOL_DIR = false ∧
  w.mkdirFails GO_PROJECT_REPORTS_FROM_DOTNET_TOOL_DIR = false ∧
  pathExists w GO_PROJECT_TO_TEST_PATH = true ∧
  cmdOk w (CmdSpec.args go_test_command) (some GO_PROJECT_TO_TEST_PATH) ∧
  artifactVerifierSpec w GO_PROJECT_NATIVE_COVERAGE_FILE = true ∧
  cmdOk w (CmdSpec.str gocover_cobertura_command_str) (some GO_PROJECT_TO_TEST_PATH) ∧
  artifactVerifierSpec w GO_PROJECT_COBERTURA_XML_FILE = true ∧
  cmdOk w (CmdSpec.args go_report_command_go_proj) (some GO_REPORT_GENERATOR_CMD_PATH) ∧
  cmdOk w (CmdSpec.args dotnet_rg_command_go_proj) none ∧
  artifactVerifierSpec w (GO_PROJECT_REPORTS_FROM_GO_TOOL_DIR ++ ["Summary.txt"]) = true ∧
  artifactVerifierSpec w (GO_PROJECT_REPORTS_FROM_DOTNET_TOOL_DIR ++ ["Summary.txt"]) = true

theorem run_go_project_workflow_ok_iff (w : World) :
    (run_go_project_workflow w).2 = .ok () ↔ goConds w := by
  unfold run_go_project_workflow goConds
  simp only [bind_eq_bindM]
  simp [bindM_snd_ok_iff, run_command_ok_iff_any, check_file_snd, ensure_dir_ok_iff_any,
    emit, exitWith, pure_eq, CmdSpec.isString, bindM_mk_ok, bindM_mk_exit,
    apply_ite, ite_apply, if_false_left, if_true_left]

theorem run_csharp_workflow_ok_iff_any (w : World) (a : Unit) :
    (run_csharp_workflow w).2 = .ok a ↔ csharpConds w := by
  cases a; exact run_csharp_workflow_ok_iff w

theorem run_go_project_workflow_ok_iff_any (w : World) (a : Unit) :
    (run_go_project_workflow w).2 = .ok a ↔ goConds w := by
  cases a; exact run_go_project_workflow_ok_iff w

/-- All conditions `main` needs to finish without `sys.exit`: the preflight
checks plus both workflows. -/
def mainConds (w : World) : Prop :=
  w.isDir GO_REPORT_GENERATOR_CMD_PATH = true ∧
  w.isFile go_main_file = true ∧
  pathExists w DOTNET_REPORT_GENERATOR_DLL_PATH = true ∧
  csharpConds w ∧ goConds w

theorem main_ok_iff (w : World) : (main w).2 = .ok () ↔ mainConds w := by
  unfold main mainConds
  simp only [bind_eq_bindM]
  rcases hd : w.isDir GO_REPORT_GENERATOR_CMD_PATH <;>
    rcases hf : w.isFile go_main_file <;>
    rcases hdll : pathExists w DOTNET_REPORT_GENERATOR_DLL_PATH <;>
    simp [hd, hf, hdll, emit, exitWith, pure_eq, bindM_mk_ok, bindM_mk_exit,
      bindM_snd_ok_iff, run_csharp_workflow_ok_iff_any, run_go_project_workflow_ok_iff_any]

/-! ## Trace membership lemmas -/

theorem mem_ite_list {α : Type} {c : Prop} [Decidable c] {x : α} {l l' : List α} :
    x ∈ (if c then l else l') ↔ (c ∧ x ∈ l) ∨ (¬c ∧ x ∈ l') := by
  split <;> simp [*]

theorem not_mem_bindM {α β : Type} {x : Step} {m : M α} {k : α → M β}
    (hm : x ∉ m.1) (hk : ∀ a, x ∉ (k a).1) : x ∉ (bindM m k).1 := by
  obtain ⟨t, r⟩ := m
  cases r with
  | ok a =>
    rw [bindM_mk_ok]
    simp only [List.mem_append, not_or]
    exact ⟨hm, hk a⟩
  | exit c => rw [bindM_mk_exit]; exact hm

theorem mem_bindM_left {α β : Type} {x : Step} {m : M α} (k : α → M β)
    (h : x ∈ m.1) : x ∈ (bindM m k).1 := by
  obtain ⟨t, r⟩ := m
  cases r with
  | ok a => rw [bindM_mk_ok]; exact List.mem_append_left _ h
  | exit c => rw [bindM_mk_exit]; exact h

theorem bindM_eq_self_of_exit {α β : Type} {m : M α} {c : Nat} (h : m.2 = .exit c)
    (k : α → M β) : bindM m k = (m.1, .exit c) := bindM_of_exit h k

theorem run_command_no_unlink (w : World) (c : CmdSpec) (d : Option Path) (n : String)
    (sh : Bool) (q : Path) : Step.unlink q ∉ (run_command w c d n sh).1 := by
  unfold run_command
  rcases hb : c.isString <;> rcases hsh : sh <;>
    simp [emit, emitIf, exitWith, bindM_mk_ok, bindM_mk_exit] <;>
    rcases hrc : w.runRc c d with _ | ⟨rc, out, err⟩ <;>
    rcases d with _ | dd <;>
    simp [hrc, pure_eq, bindM_mk_ok, bindM_mk_exit, mem_ite_list] <;>
    (try split) <;> simp [mem_ite_list]

theorem ensure_dir_no_unlink (w : World) (p : Path) (q : Path) :
    Step.unlink q ∉ (ensure_dir w p).1 := by
  unfold ensure_dir
  rcases hm : w.mkdirFails p <;>
    simp [hm, emit, exitWith, bindM_mk_ok, bindM_mk_exit, pure_eq]

theorem check_file_no_unlink (w : World) (p : Path) (desc : String) (q : Path) :
    Step.unlink q ∉ (check_file_generated w p desc).1 := by
  unfold check_file_generated
  split <;> simp [emit, bindM_mk_ok, pure_eq]

theorem emit_no_unlink (s : String) (b : Bool) (q : Path) :
    Step.unlink q ∉ (emit s b).1 := by simp [emit]

theorem pure_no_unlink {α : Type} (a : α) (q : Path) :
    Step.unlink q ∉ ((pure a : M α)).1 := by simp [pure_eq]

theorem exitWith_no_unlink {α : Type} (c : Nat) (q : Path) :
    Step.unlink q ∉ ((exitWith c : M α)).1 := by simp [exitWith]

set_option maxRecDepth 4000 in
/-- The C# workflow performs no file deletion at all, in any environment. -/
theorem run_csharp_workflow_no_unlink (w : World) (q : Path) :
    Step.unlink q ∉ (run_csharp_workflow w).1 := by
  unfold run_csharp_workflow
  simp only [bind_eq_bindM]
  repeat first
    | exact emit_no_unlink _ _ _
    | exact run_command_no_unlink _ _ _ _ _ _
    | exact check_file_no_unlink _ _ _ _
    | exact ensure_dir_no_unlink _ _ _
    | exact pure_no_unlink _ _
    | exact exitWith_no_unlink _ _
    | refine not_mem_bindM ?_ (fun _ => ?_)
    | split

/-- An execution event is always emitted when the command specification shape
matches the shell flag: mode validation is the only thing that can stop the
launch attempt. -/
theorem run_command_exec_mem (w : World) (c : CmdSpec) (d : Option Path) (n : String)
    (sh : Bool) (h : c.isString = sh) :
    Step.execCmd n c d ∈ (run_command w c d n sh).1 := by
  unfold run_command
  rcases hsh : sh <;> rw [hsh] at h <;>
    simp [h, emit, emitIf, exitWith, bindM_mk_ok, bindM_mk_exit] <;>
    rcases hrc : w.runRc c d with _ | ⟨rc, out, err⟩ <;>
    rcases d with _ | dd <;>
    simp [hrc, pure_eq, bindM_mk_ok, bindM_mk_exit, mem_ite_list]

/-- A failed Artifact Verifier contract is exactly the guard of
`check_file_generated`. -/
theorem guard_of_not_verifier {w : World} {p : Path}
    (h : artifactVerifierSpec w p = false) :
    (!pathExists w p || statSize w p == 0) = true := by
  unfold artifactVerifierSpec at h
  rcases hf : w.fileSize p with _ | n
  · simp [pathExists, statSize, hf]
  · rcases n with _ | m <;> simp_all [pathExists, statSize, hf]

/-- A passing Artifact Verifier contract makes the guard of
`check_file_generated` false. -/
theorem guard_of_verifier {w : World} {p : Path}
    (h : artifactVerifierSpec w p = true) :
    (!pathExists w p || statSize w p == 0) = false := by
  unfold artifactVerifierSpec at h
  rcases hf : w.fileSize p with _ | n
  · simp [hf] at h
  · rcases n with _ | m <;> simp_all [pathExists, statSize, hf]

/-! ## Filesystem-model lemmas for directory creation -/

theorem insertDir_of_mem {fs : List Path} {p : Path} (h : p ∈ fs) :
    insertDir fs p = fs := if_pos h

theorem mem_insertDir {fs : List Path} {q : Path} (p : Path) (h : q ∈ fs) :
    q ∈ insertDir fs p := by
  unfold insertDir
  split
  · exact h
  · exact List.mem_append_left _ h

theorem self_mem_insertDir (fs : List Path) (p : Path) : p ∈ insertDir fs p := by
  unfold insertDir
  split
  · assumption
  · simp

theorem mem_foldl_insertDir {q : Path} (l : List Path) (fs : List Path) (h : q ∈ fs) :
    q ∈ l.foldl insertDir fs := by
  induction l generalizing fs with
  | nil => exact h
  | cons a l ih => exact ih _ (mem_insertDir a h)

theorem mem_foldl_insertDir_of_mem {q : Path} {l : List Path} (fs : List Path)
    (h : q ∈ l) : q ∈ l.foldl insertDir fs := by
  induction l generalizing fs with
  | nil => cases h
  | cons a l ih =>
    rcases List.mem_cons.mp h with rfl | h'
    · exact mem_foldl_insertDir l _ (self_mem_insertDir fs q)
    · exact ih _ h'

theorem foldl_insertDir_of_all_mem {l : List Path} {fs : List Path}
    (h : ∀ q ∈ l, q ∈ fs) : l.foldl insertDir fs = fs := by
  induction l with
  | nil => rfl
  | cons a l ih =>
    have ha : a ∈ fs := h a (List.mem_cons_self a l)
    simp only [List.foldl_cons, insertDir_of_mem ha]
    exact ih (fun q hq => h q (List.mem_cons_of_mem a hq))

theorem ensure_dir_fs_of_all_mem {fs : List Path} {p : Path}
    (h : ∀ q ∈ pathPrefixes p, q ∈ fs) : ensure_dir_fs fs p = fs :=
  foldl_insertDir_of_all_mem h

theorem ensure_dir_fs_idem (fs : List Path) (p : Path) :
    ensure_dir_fs (ensure_dir_fs fs p) p = ensure_dir_fs fs p :=
  ensure_dir_fs_of_all_mem (fun _ hq => mem_foldl_insertDir_of_mem fs hq)

theorem bindM_mk_fst {α β : Type} (t : List Step) (r : Res α) (k : α → M β) :
    (bindM (t, r) k).1 = t ++ (match r with | .ok a => (k a).1 | .exit _ => []) := by
  cases r
  · rw [bindM_mk_ok]
  · rw [bindM_mk_exit]; simp

/-! ## Concrete environments used by witnesses and counterexamples -/

/-- Every subprocess succeeds with empty output, every path exists with size 1,
every preflight check passes, no directory creation fails. -/
def wAllGood : World :=
  { runRc := fun _ _ => some (0, "", "")
    fileSize := fun _ => some 1
    isDir := fun _ => true
    isFile := fun _ => true
    mkdirFails := fun _ => false }

/-- Like `wAllGood`, except the Go-tool summary for the C# project is never
produced. -/
def wGoSummaryMissing : World :=
  { wAllGood with
    fileSize := fun p =>
      if p = CSHARP_REPORTS_FROM_GO_TOOL_DIR ++ ["Summary.txt"] then none else some 1 }

/-- Like `wAllGood`, except the Go project directory does not exist. -/
def wNoGoProjectDir : World :=
  { wAllGood with
    fileSize := fun p => if p = GO_PROJECT_TO_TEST_PATH then none else some 1 }

/-- Like `wAllGood`, except the two Go coverage artifacts are initially
absent (a first run). -/
def wFirstRun : World :=
  { wAllGood with
    fileSize := fun p =>
      if p = GO_PROJECT_NATIVE_COVERAGE_FILE ∨ p = GO_PROJECT_COBERTURA_XML_FILE then
        none
      else some 1 }

/-- Like `wAllGood`, except the C# test runner exits with code 1. -/
def wTestFails : World :=
  { wAllGood with
    runRc := fun c _ =>
      if c = CmdSpec.args dotnet_test_command then some (1, "", "boom")
      else some (0, "", "") }

/-! ## Trace preludes of the two workflows -/

/-- The events of the Go workflow up to and including the launch of the
`go test` command, when the output directories are created successfully and
the Go project directory exists. -/
def goWorkflowPrelude : List Step :=
  [Step.printLine "\n--- Starting Go Project Workflow ---" false,
   Step.mkdirCall GO_PROJECT_REPORTS_FROM_GO_TOOL_DIR,
   Step.mkdirCall GO_PROJECT_REPORTS_FROM_DOTNET_TOOL_DIR,
   Step.printLine "Go workflow output directories ensured." false,
   Step.unlink GO_PROJECT_NATIVE_COVERAGE_FILE,
   Step.unlink GO_PROJECT_COBERTURA_XML_FILE,
   Step.printLine "Old Go coverage files removed." false,
   Step.printLine "\n--- Generating native Go coverage ---" false,
   Step.printLine ("Executing " ++ "go test (Go project)" ++ ": " ++
     cmdPreview (displayCmd (CmdSpec.args go_test_command))) false,
   Step.printLine ("  (in " ++ pathStr GO_PROJECT_TO_TEST_PATH ++ ")") false,
   Step.execCmd "go test (Go project)" (CmdSpec.args go_test_command)
     (some GO_PROJECT_TO_TEST_PATH)]

/-- The events of the C# workflow up to and including the launch of the
`dotnet test` command, when the output directories are created
successfully. -/
def csharpWorkflowPrelude : List Step :=
  [Step.printLine "\n--- Starting C# Project Workflow ---" false,
   Step.mkdirCall CSHARP_COVERAGE_OUTPUT_DIR,
   Step.mkdirCall CSHARP_REPORTS_FROM_GO_TOOL_DIR,
   Step.mkdirCall CSHARP_REPORTS_FROM_DOTNET_TOOL_DIR,
   Step.printLine "C# workflow output directories ensured." false,
   Step.printLine "\n--- Generating Cobertura XML for C# project ---" false,
   Step.printLine ("Executing " ++ "dotnet test (C#)" ++ ": " ++
     cmdPreview (displayCmd (CmdSpec.args dotnet_test_command))) false,
   Step.execCmd "dotnet test (C#)" (CmdSpec.args dotnet_test_command) none]

/-- Under successful directory creation and an existing Go project directory,
the Go workflow's trace starts with exactly the prelude: both stale-coverage
deletions happen after the directory stage and before the `go test` launch. -/
theorem run_go_project_workflow_prelude (w : World) (sz : Nat)
    (h1 : w.mkdirFails GO_PROJECT_REPORTS_FROM_GO_TOOL_DIR = false)
    (h2 : w.mkdirFails GO_PROJECT_REPORTS_FROM_DOTNET_TOOL_DIR = false)
    (hg : w.fileSize GO_PROJECT_TO_TEST_PATH = some sz) :
    ∃ t, (run_go_project_workflow w).1 = goWorkflowPrelude ++ t := by
  unfold run_go_project_workflow run_command goWorkflowPrelude
  simp only [bind_eq_bindM]
  simp [h1, h2, hg, pathExists, emit, exitWith, pure_eq, ensure_dir,
    bindM_mk_fst, bindM_mk_ok, bindM_mk_exit, CmdSpec.isString]

/-- Under successful directory creation, the C# workflow's trace starts with
exactly the prelude: all three output directories are ensured before the
`dotnet test` launch. -/
theorem run_csharp_workflow_prelude (w : World)
    (h1 : w.mkdirFails CSHARP_COVERAGE_OUTPUT_DIR = false)
    (h2 : w.mkdirFails CSHARP_REPORTS_FROM_GO_TOOL_DIR = false)
    (h3 : w.mkdirFails CSHARP_REPORTS_FROM_DOTNET_TOOL_DIR = false) :
    ∃ t, (run_csharp_workflow w).1 = csharpWorkflowPrelude ++ t := by
  unfold run_csharp_workflow run_command csharpWorkflowPrelude
  simp only [bind_eq_bindM]
  simp [h1, h2, h3, emit, exitWith, pure_eq, ensure_dir,
    bindM_mk_fst, bindM_mk_ok, bindM_mk_exit, CmdSpec.isString]

/-! ## Claim theorems -/

/-- C3: for every file path, `check_file_generated` returns (never exits) a
boolean that is true exactly when the path exists with size greater than zero
bytes, and false exactly when the path is missing or has zero bytes. -/
theorem C3_artifact_verifier_contract :
    ∀ (w : World) (p : Path) (desc : String),
      (check_file_generated w p desc).2 = .ok (artifactVerifierSpec w p) ∧
      (artifactVerifierSpec w p = true ↔ ∃ n, w.fileSize p = some n ∧ 0 < n) ∧
      (artifactVerifierSpec w p = false ↔
        w.fileSize p = none ∨ w.fileSize p = some 0) := by
  intro w p desc
  refine ⟨check_file_snd w p desc, ?_, ?_⟩ <;>
    (unfold artifactVerifierSpec
     rcases hf : w.fileSize p with _ | n
     · simp
     · rcases n with _ | m <;> simp)

/-- C4: a command whose declared mode is shell but whose specification is not
a string, or whose mode is non-shell but whose specification is a string,
makes `run_command` exit with code 1 after printing one diagnostic, with no
execution event in the trace. -/
theorem C4_mode_mismatch_aborts_before_execution :
    ∀ (w : World) (c : CmdSpec) (d : Option Path) (n : String),
      (c.isString = false →
        run_command w c d n true =
          ([Step.printLine ("❌ Error: If shell=True, command must be a string. Got: " ++
            displayCmd c) true], .exit 1)) ∧
      (c.isString = true →
        run_command w c d n false =
          ([Step.printLine ("❌ Error: If shell=False, command must be a list. Got: " ++
            displayCmd c) true], .exit 1)) := by
  intro w c d n
  constructor <;> intro h <;> unfold run_command <;>
    simp [h, emit, exitWith, bindM_mk_ok, bindM_mk_exit]

/-- Witness for C4 at a concrete mismatched invocation. -/
theorem C4_witness :
    run_command wAllGood (CmdSpec.args ["gocover-cobertura.exe"]) none
        "gocover-cobertura" true =
      ([Step.printLine ("❌ Error: If shell=True, command must be a string. Got: " ++
        displayCmd (CmdSpec.args ["gocover-cobertura.exe"])) true], .exit 1) :=
  (C4_mode_mismatch_aborts_before_execution wAllGood
    (CmdSpec.args ["gocover-cobertura.exe"]) none "gocover-cobertura").1 rfl

/-- C7: the whole process exits 0 exactly when the preflight checks and every
stage of both workflows succeed, and its exit status is never anything other
than 0 or 1. -/
theorem C7_process_exit_status (w : World) :
    (processExit (main w) = 0 ↔ mainConds w) ∧
    (processExit (main w) = 0 ∨ processExit (main w) = 1) := by
  have hg := main_goodRes w
  have hiff := main_ok_iff w
  rcases h : (main w).2 with a | c
  · cases a
    have hconds := hiff.mp h
    simp [processExit, h, hconds]
  · rw [h] at hg
    have hc1 : c = 1 := hg
    subst hc1
    rw [h] at hiff
    simp only [processExit, h]
    constructor
    · constructor
      · intro h0; cases h0
      · intro hc
        exact absurd (hiff.mpr hc) (by simp)
    · right; trivial

/-- C8: the Directory Ensurer is idempotent on the filesystem model, is a
no-op on an already existing directory (creating the directory and its
missing parents otherwise is `mkdir_parents`), and `ensure_dir` itself
succeeds without exiting whenever the underlying mkdir raises no error. -/
theorem C8_ensure_dir_idempotent :
    (∀ (fs : List Path) (p : Path),
      ensure_dir_fs (ensure_dir_fs fs p) p = ensure_dir_fs fs p) ∧
    (∀ (fs : List Path) (p : Path),
      (∀ q ∈ pathPrefixes p, q ∈ fs) → ensure_dir_fs fs p = fs) ∧
    (∀ (w : World) (p : Path),
      w.mkdirFails p = false → (ensure_dir w p).2 = .ok ()) :=
  ⟨ensure_dir_fs_idem,
   fun _ _ h => ensure_dir_fs_of_all_mem h,
   fun w p h => (ensure_dir_ok_iff w p).mpr h⟩

/-- Witness for C8: a two-component path over an empty filesystem, an
already-complete filesystem, and a concrete world whose mkdir succeeds. -/
theorem C8_witness :
    ensure_dir_fs (ensure_dir_fs [] ["reports", "go_project_go_tool_report"])
        ["reports", "go_project_go_tool_report"] =
      ensure_dir_fs [] ["reports", "go_project_go_tool_report"] ∧
    ensure_dir_fs [["reports"], ["reports", "go_project_go_tool_report"]]
        ["reports", "go_project_go_tool_report"] =
      [["reports"], ["reports", "go_project_go_tool_report"]] ∧
    (ensure_dir wAllGood ["reports", "go_project_go_tool_report"]).2 = .ok () :=
  ⟨C8_ensure_dir_idempotent.1 [] ["reports", "go_project_go_tool_report"],
   C8_ensure_dir_idempotent.2.1 _ ["reports", "go_project_go_tool_report"] (by decide),
   C8_ensure_dir_idempotent.2.2 wAllGood ["reports", "go_project_go_tool_report"] rfl⟩

set_option maxRecDepth 4000 in
set_option maxHeartbeats 1600000 in
/-- C1: whenever a launched subprocess completes with a non-zero exit code,
`run_command` prints the command preview, the error line naming the command,
its return code, and its captured stdout/stderr when non-empty, ends with
`sys.exit(1)`, and no continuation sequenced after it contributes any further
events. -/
theorem C1_nonzero_exit_is_fatal (w : World) (c : CmdSpec) (d : Option Path)
    (n : String) (sh : Bool) (rc : Int) (out err : String)
    (hmode : c.isString = sh)
    (hrc : w.runRc c d = some (rc, out, err)) (h0 : rc ≠ 0) :
    (run_command w c d n sh).2 = .exit 1 ∧
    Step.printLine ("Executing " ++ n ++ ": " ++ cmdPreview (displayCmd c)) false
        ∈ (run_command w c d n sh).1 ∧
    Step.printLine ("❌ Error executing " ++ n ++ ": " ++ displayCmd c) true
        ∈ (run_command w c d n sh).1 ∧
    Step.printLine ("  Return code: " ++ toString rc) true ∈ (run_command w c d n sh).1 ∧
    (out ≠ "" → Step.printLine ("  Stdout from " ++ n ++ ":\n" ++ out.trim) false
        ∈ (run_command w c d n sh).1) ∧
    (err ≠ "" → Step.printLine ("  Stderr from " ++ n ++ ":\n" ++ err.trim) true
        ∈ (run_command w c d n sh).1) ∧
    ∀ (k : Unit → M Unit),
      bindM (run_command w c d n sh) k = ((run_command w c d n sh).1, .exit 1) := by
  have hs : (run_command w c d n sh).2 = .exit 1 := by
    unfold run_command
    rcases hsh : sh <;> rw [hsh] at hmode <;>
      simp [hmode, emit, emitIf, exitWith, pure_eq, bindM_mk_ok, bindM_mk_exit, hrc] <;>
      rcases d with _ | dd <;>
      simp [hrc, pure_eq, bindM_mk_ok, bindM_mk_exit, h0]
  refine ⟨hs, ?_, ?_, ?_, ?_, ?_, fun k => bindM_of_exit hs k⟩ <;>
    (unfold run_command
     rcases hsh : sh <;> rw [hsh] at hmode <;>
       simp [hmode, emit, emitIf, exitWith, pure_eq, bindM_mk_ok, bindM_mk_exit, hrc] <;>
       rcases d with _ | dd <;>
       simp [hrc, pure_eq, bindM_mk_ok, bindM_mk_exit, h0, mem_ite_list] <;>
       (try (intro ho; simp [ho])))

/-- Witness for C1: a concrete environment where `dotnet test` exits 1. -/
theorem C1_witness :
    (run_command wTestFails (CmdSpec.args dotnet_test_command) none
        "dotnet test (C#)" false).2 = .exit 1 ∧
    Step.printLine ("  Return code: " ++ toString (1 : Int)) true
        ∈ (run_command wTestFails (CmdSpec.args dotnet_test_command) none
            "dotnet test (C#)" false).1 := by
  have h := C1_nonzero_exit_is_fatal wTestFails (CmdSpec.args dotnet_test_command) none
    "dotnet test (C#)" false 1 "" "boom" rfl (by decide) (by decide)
  exact ⟨h.1, h.2.2.2.1⟩

/-- C9: when the Go project directory does not exist, the Go workflow ensures
the two report output directories, prints a diagnostic and exits with code 1,
with no deletion and no subprocess launch at all. -/
theorem C9_missing_go_project_aborts_early (w : World)
    (h1 : w.mkdirFails GO_PROJECT_REPORTS_FROM_GO_TOOL_DIR = false)
    (h2 : w.mkdirFails GO_PROJECT_REPORTS_FROM_DOTNET_TOOL_DIR = false)
    (h3 : w.fileSize GO_PROJECT_TO_TEST_PATH = none) :
    run_go_project_workflow w =
      ([Step.printLine "\n--- Starting Go Project Workflow ---" false,
        Step.mkdirCall GO_PROJECT_REPORTS_FROM_GO_TOOL_DIR,
        Step.mkdirCall GO_PROJECT_REPORTS_FROM_DOTNET_TOOL_DIR,
        Step.printLine ("❌ Error: Go project to test not found at " ++
          pathStr GO_PROJECT_TO_TEST_PATH) true], .exit 1) := by
  unfold run_go_project_workflow
  simp only [bind_eq_bindM]
  simp [h1, h2, h3, pathExists, emit, exitWith, pure_eq, ensure_dir,
    bindM_mk_ok, bindM_mk_exit]

/-- Witness for C9 at the concrete no-Go-directory environment. -/
theorem C9_witness :
    run_go_project_workflow wNoGoProjectDir =
      ([Step.printLine "\n--- Starting Go Project Workflow ---" false,
        Step.mkdirCall GO_PROJECT_REPORTS_FROM_GO_TOOL_DIR,
        Step.mkdirCall GO_PROJECT_REPORTS_FROM_DOTNET_TOOL_DIR,
        Step.printLine ("❌ Error: Go project to test not found at " ++
          pathStr GO_PROJECT_TO_TEST_PATH) true], .exit 1) :=
  C9_missing_go_project_aborts_early wNoGoProjectDir rfl rfl (by decide)

/-- C10: on a first run, where neither the native coverage file nor the
Cobertura XML exists, the deletion step still succeeds (the embedding of
`unlink(missing_ok=True)` cannot fail on an absent file, per its `pathlib`
contract) and the workflow proceeds through both deletions to the launch of
the `go test` command. -/
theorem C10_stale_unlink_tolerates_absence (w : World) (sz : Nat)
    (h1 : w.mkdirFails GO_PROJECT_REPORTS_FROM_GO_TOOL_DIR = false)
    (h2 : w.mkdirFails GO_PROJECT_REPORTS_FROM_DOTNET_TOOL_DIR = false)
    (hg : w.fileSize GO_PROJECT_TO_TEST_PATH = some sz)
    (habs1 : w.fileSize GO_PROJECT_NATIVE_COVERAGE_FILE = none)
    (habs2 : w.fileSize GO_PROJECT_COBERTURA_XML_FILE = none) :
    ∃ t, (run_go_project_workflow w).1 = goWorkflowPrelude ++ t :=
  run_go_project_workflow_prelude w sz h1 h2 hg

/-- Witness for C10 at the concrete first-run environment. -/
theorem C10_witness :
    ∃ t, (run_go_project_workflow wFirstRun).1 = goWorkflowPrelude ++ t :=
  C10_stale_unlink_tolerates_absence wFirstRun 1 rfl rfl (by decide) (by decide) (by decide)

/-- Counterexample to C5 as stated: a complete, successful C# workflow run
whose trace launches `dotnet test` but contains no deletion whatsoever, so
stale-artifact deletion does not happen in each of the two workflows. -/
theorem C5_counterexample :
    (run_csharp_workflow wAllGood).2 = .ok () ∧
    ((run_csharp_workflow wAllGood).1.all (fun e => !e.isUnlink)) = true ∧
    ((run_csharp_workflow wAllGood).1.any (Step.isExecNamed "dotnet test (C#)")) = true := by
  decide

/-- C5 as amended: only the Go workflow deletes stale coverage artifacts —
it deletes both the native coverage file and the Cobertura XML before
launching its test command — while the C# workflow never deletes anything in
any environment. -/
theorem C5_deletion_only_in_go_workflow (w : World) (sz : Nat)
    (h1 : w.mkdirFails GO_PROJECT_REPORTS_FROM_GO_TOOL_DIR = false)
    (h2 : w.mkdirFails GO_PROJECT_REPORTS_FROM_DOTNET_TOOL_DIR = false)
    (hg : w.fileSize GO_PROJECT_TO_TEST_PATH = some sz) :
    (∀ (w2 : World) (q : Path), Step.unlink q ∉ (run_csharp_workflow w2).1) ∧
    ∃ t, (run_go_project_workflow w).1 = goWorkflowPrelude ++ t :=
  ⟨fun w2 q => run_csharp_workflow_no_unlink w2 q,
   run_go_project_workflow_prelude w sz h1 h2 hg⟩

/-- Witness for C5 at the all-good environment. -/
theorem C5_witness :
    Step.unlink GO_PROJECT_NATIVE_COVERAGE_FILE ∉ (run_csharp_workflow wAllGood).1 ∧
    ∃ t, (run_go_project_workflow wAllGood).1 = goWorkflowPrelude ++ t := by
  have h := C5_deletion_only_in_go_workflow wAllGood 1 rfl rfl rfl
  exact ⟨h.1 wAllGood GO_PROJECT_NATIVE_COVERAGE_FILE, h.2⟩

/-- Counterexample to C6 as stated: in a fully successful run, the `dotnet
test` subprocess of the C# workflow is launched strictly before the Go
workflow's output directory is created, so directory preparation is not a
stage that precedes the per-project workflows. -/
theorem C6_counterexample :
    ((main wAllGood).1.any (fun e => e.isMkdirOf GO_PROJECT_REPORTS_FROM_GO_TOOL_DIR)) = true ∧
    ((main wAllGood).1.any (Step.isExecNamed "dotnet test (C#)")) = true ∧
    (main wAllGood).1.findIdx (Step.isExecNamed "dotnet test (C#)") <
      (main wAllGood).1.findIdx (fun e => e.isMkdirOf GO_PROJECT_REPORTS_FROM_GO_TOOL_DIR) := by
  decide

/-- C6 as amended: each per-project workflow creates its own output
directories, idempotently, at its start — before that project's test
execution, conversion and report generation — rather than all directories
being created before either workflow begins. -/
theorem C6_each_workflow_prepares_own_dirs (w : World) (sz : Nat)
    (hc1 : w.mkdirFails CSHARP_COVERAGE_OUTPUT_DIR = false)
    (hc2 : w.mkdirFails CSHARP_REPORTS_FROM_GO_TOOL_DIR = false)
    (hc3 : w.mkdirFails CSHARP_REPORTS_FROM_DOTNET_TOOL_DIR = false)
    (hg1 : w.mkdirFails GO_PROJECT_REPORTS_FROM_GO_TOOL_DIR = false)
    (hg2 : w.mkdirFails GO_PROJECT_REPORTS_FROM_DOTNET_TOOL_DIR = false)
    (hgo : w.fileSize GO_PROJECT_TO_TEST_PATH = some sz) :
    (∃ t, (run_csharp_workflow w).1 = csharpWorkflowPrelude ++ t) ∧
    (∃ t, (run_go_project_workflow w).1 = goWorkflowPrelude ++ t) :=
  ⟨run_csharp_workflow_prelude w hc1 hc2 hc3,
   run_go_project_workflow_prelude w sz hg1 hg2 hgo⟩

/-- Witness for C6 at the all-good environment. -/
theorem C6_witness :
    (∃ t, (run_csharp_workflow wAllGood).1 = csharpWorkflowPrelude ++ t) ∧
    (∃ t, (run_go_project_workflow wAllGood).1 = goWorkflowPrelude ++ t) :=
  C6_each_workflow_prepares_own_dirs wAllGood 1 rfl rfl rfl rfl rfl rfl

/-- The working-directory preview lines printed by `run_command`. -/
def cwdPrintList (d : Option Path) : List Step :=
  match d with
  | some dd => [Step.printLine ("  (in " ++ pathStr dd ++ ")") false]
  | none => []

/-- Equation form of a successfully completing `run_command`. -/
theorem run_command_ok_eq (w : World) (c : CmdSpec) (d : Option Path) (n : String)
    (sh : Bool) (out err : String) (hmode : c.isString = sh)
    (hrc : w.runRc c d = some (0, out, err)) :
    run_command w c d n sh =
      (Step.printLine ("Executing " ++ n ++ ": " ++ cmdPreview (displayCmd c)) false ::
        cwdPrintList d ++
        [Step.execCmd n c d] ++
        (if (out != "") = true then
          [Step.printLine ("  Stdout from " ++ n ++ ":
" ++ out.trim) false] else []) ++
        (if (err != "") = true then
          [Step.printLine ("  Stderr from " ++ n ++ ":
" ++ err.trim) true] else []),
       .ok ()) := by
  unfold run_command cwdPrintList
  rcases hsh : sh <;> rw [hsh] at hmode <;>
    rcases d with _ | dd <;>
    simp [hmode, emit, emitIf, exitWith, pure_eq, bindM_mk_ok, bindM_mk_exit, hrc]

/-- Equation form of `check_file_generated`: one diagnostic line and the
Artifact Verifier value, never an exit. -/
theorem check_file_eq (w : World) (p : Path) (desc : String) :
    check_file_generated w p desc =
      ((if (!pathExists w p || statSize w p == 0) = true then
          [Step.printLine ("❌ Error: " ++ desc ++ " not generated or is empty at " ++
            pathStr p) true]
        else
          [Step.printLine ("✅ " ++ desc ++ " generated: " ++ pathStr p) false]),
       .ok (artifactVerifierSpec w p)) := by
  have hsnd := check_file_snd w p desc
  unfold check_file_generated at hsnd ⊢
  split <;> simp_all [emit, bindM_mk_ok, pure_eq]

/-- Equation form of a successful `ensure_dir`. -/
theorem ensure_dir_ok_eq (w : World) (p : Path) (h : w.mkdirFails p = false) :
    ensure_dir w p = ([Step.mkdirCall p], .ok ()) := by
  unfold ensure_dir
  simp [h, emit, exitWith, bindM_mk_ok, pure_eq]

/-- Counterexample to C2 as stated: an environment where the Go-tool summary
check for the C# project returns false, yet the .NET report generator is
still launched; the process exits 1 only afterwards. -/
theorem C2_counterexample :
    artifactVerifierSpec wGoSummaryMissing
        (CSHARP_REPORTS_FROM_GO_TOOL_DIR ++ ["Summary.txt"]) = false ∧
    Step.execCmd ".NET ReportGenerator (for C#)" (CmdSpec.args dotnet_rg_command_csharp) none
        ∈ (run_csharp_workflow wGoSummaryMissing).1 ∧
    (run_csharp_workflow wGoSummaryMissing).2 = .exit 1 := by
  decide

set_option maxRecDepth 16000 in
set_option maxHeartbeats 1600000 in
/-- C2 as amended: a false Artifact Verifier result for report-generator A's
summary (the Go-tool `Summary.txt`) does not stop the C# workflow at that
point; report-generator B (the .NET tool) is still invoked, and the workflow
terminates with exit code 1 only at its final combined check. -/
theorem C2_b_still_invoked_after_failed_a_check (w : World) (o1 e1 o2 e2 o3 e3 : String)
    (h1 : w.mkdirFails CSHARP_COVERAGE_OUTPUT_DIR = false)
    (h2 : w.mkdirFails CSHARP_REPORTS_FROM_GO_TOOL_DIR = false)
    (h3 : w.mkdirFails CSHARP_REPORTS_FROM_DOTNET_TOOL_DIR = false)
    (ht : w.runRc (CmdSpec.args dotnet_test_command) none = some (0, o1, e1))
    (hx : artifactVerifierSpec w CSHARP_COBERTURA_XML_PATH = true)
    (hgo : w.runRc (CmdSpec.args go_report_command_csharp)
        (some GO_REPORT_GENERATOR_CMD_PATH) = some (0, o2, e2))
    (hA : artifactVerifierSpec w
        (CSHARP_REPORTS_FROM_GO_TOOL_DIR ++ ["Summary.txt"]) = false)
    (hB : w.runRc (CmdSpec.args dotnet_rg_command_csharp) none = some (0, o3, e3)) :
    Step.execCmd ".NET ReportGenerator (for C#)" (CmdSpec.args dotnet_rg_command_csharp) none
        ∈ (run_csharp_workflow w).1 ∧
    (run_csharp_workflow w).2 = .exit 1 := by
  unfold run_csharp_workflow
  simp only [bind_eq_bindM]
  rw [ensure_dir_ok_eq w _ h1, ensure_dir_ok_eq w _ h2, ensure_dir_ok_eq w _ h3,
    run_command_ok_eq w (CmdSpec.args dotnet_test_command) none "dotnet test (C#)"
      false o1 e1 rfl ht,
    run_command_ok_eq w (CmdSpec.args go_report_command_csharp)
      (some GO_REPORT_GENERATOR_CMD_PATH) "Go Report Generator (for C#)" false o2 e2 rfl hgo,
    run_command_ok_eq w (CmdSpec.args dotnet_rg_command_csharp) none
      ".NET ReportGenerator (for C#)" false o3 e3 rfl hB,
    check_file_eq w CSHARP_COBERTURA_XML_PATH, check_file_eq w
      (CSHARP_REPORTS_FROM_GO_TOOL_DIR ++ ["Summary.txt"]),
    check_file_eq w (CSHARP_REPORTS_FROM_DOTNET_TOOL_DIR ++ ["Summary.txt"]), hx, hA]
  constructor <;>
    simp [emit, exitWith, pure_eq, bindM_mk_ok, bindM_mk_exit, bindM_ite,
      mem_ite_list, cwdPrintList, guard_of_verifier hx, guard_of_not_verifier hA]

/-- Witness for C2 at the concrete missing-Go-summary environment. -/
theorem C2_witness :
    Step.execCmd ".NET ReportGenerator (for C#)" (CmdSpec.args dotnet_rg_command_csharp) none
        ∈ (run_csharp_workflow wGoSummaryMissing).1 ∧
    (run_csharp_workflow wGoSummaryMissing).2 = .exit 1 :=
  C2_b_still_invoked_after_failed_a_check wGoSummaryMissing "" "" "" "" "" ""
    rfl rfl rfl (by decide) (by decide) (by decide) (by decide) (by decide)

end GenerateReports
